import Mathlib

/-!
Shallow embedding of the data-preparation core of `src/Vis1.py`
(the `load_data` function, lines 22–43).

The pandas `DataFrame` returned by `pd.read_csv` is modelled as a
`RawTable`: a list of rows whose numeric cells are rationals, together
with booleans recording which of the columns that `load_data` accesses
are present in the CSV header (`pd.read_csv` yields a rectangular
table, so presence is a per-column, not per-cell, fact).  Accessing a
missing column in pandas raises `KeyError`, and
`df.drop(columns=['Unnamed: 0'])` raises `KeyError` when the column is
absent (`errors='raise'` is the default); `pd.to_datetime` raises on
an unparseable date string.  All of these abort `load_data`, which we
model with `Except`.

Floating-point division by zero in `(df['Close'] - df['Open']) / df['Open']`
follows numpy semantics (±inf or nan, no exception); the value of the
`Price_Percentage_Change` column is therefore modelled by `PVal`,
a rational extended with the three non-finite markers.  The cells read
from the CSV are finite decimal numbers, hence plain rationals, and
`Price_Change` (a subtraction of finite values) is a plain rational.
`NaN` cells produced by pandas itself (the first four entries of the
rolling mean, unmapped tickers under `Series.map`) are modelled with
`Option`.
-/

/-- A calendar date, as produced by `pd.to_datetime`. -/
structure Date where
  year : Nat
  month : Nat
  day : Nat
deriving DecidableEq, Repr

/-- Value of a float column that may hold non-finite entries
(numpy division by zero produces `inf`, `-inf` or `nan`). -/
inductive PVal where
  | finite (q : ℚ)
  | posInf
  | negInf
  | nan
deriving DecidableEq, Repr

/-- `x > 0` on Python floats: `inf > 0` is `True`, `nan > 0` and
`-inf > 0` are `False`. -/
def PVal.gtZero : PVal → Bool
  | .finite q => decide (0 < q)
  | .posInf => true
  | .negInf => false
  | .nan => false

/-- Whether a float-column value is an ordinary finite number. -/
def PVal.isFinite : PVal → Bool
  | .finite _ => true
  | _ => false

/-- numpy elementwise division `a / b`: ordinary division when `b ≠ 0`,
otherwise `±inf` by the sign of `a`, and `nan` for `0 / 0`. -/
def npDiv (a b : ℚ) : PVal :=
  if b ≠ 0 then .finite (a / b)
  else if 0 < a then .posInf
  else if a < 0 then .negInf
  else .nan

/-- Multiplication of a float-column value by the finite scalar 100
(`inf * 100 = inf`, `-inf * 100 = -inf`, `nan * 100 = nan`). -/
def PVal.mul100 : PVal → PVal
  | .finite q => .finite (q * 100)
  | .posInf => .posInf
  | .negInf => .negInf
  | .nan => .nan

/-- One row of the CSV as read by `pd.read_csv("./MarketData.csv")`:
the cells of the columns `load_data` touches.  `Date` is still the raw
string at this point. -/
structure RawRow where
  ticker : String
  date : String
  Open : ℚ
  close : ℚ
  adjClose : ℚ
  volume : ℚ
deriving DecidableEq, Repr

/-- The frame returned by `pd.read_csv`: its rows plus, for each column
that `load_data` accesses by name, whether the CSV header contains it. -/
structure RawTable where
  hasUnnamed : Bool
  hasTicker : Bool
  hasDate : Bool
  hasOpen : Bool
  hasClose : Bool
  hasAdjClose : Bool
  rows : List RawRow
deriving DecidableEq, Repr

/-- The ways `load_data` can raise: a pandas `KeyError` on a missing
column, or the parse error raised by `pd.to_datetime`. -/
inductive PrepError where
  | keyError (col : String)
  | parseError (s : String)
deriving DecidableEq, Repr

/-- Split a character list at each `'-'` (for parsing `Y-M-D` date
strings). -/
def splitDash : List Char → List (List Char)
  | [] => [[]]
  | c :: cs =>
    let rest := splitDash cs
    if c = '-' then [] :: rest
    else match rest with
      | [] => [[c]]
      | g :: gs => (c :: g) :: gs

/-- Read a nonempty all-digit character list as a number. -/
def digitsToNat : List Char → Option Nat
  | [] => none
  | cs =>
    if cs.all (fun c => c.isDigit) then
      some (cs.foldl (fun n c => 10 * n + (c.toNat - 48)) 0)
    else none

/-- Number of days in a month (proleptic Gregorian, as validated by
`pd.to_datetime`). -/
def daysInMonth (y m : Nat) : Nat :=
  if m = 2 then
    if y % 4 = 0 ∧ (y % 100 ≠ 0 ∨ y % 400 = 0) then 29 else 28
  else if m = 4 ∨ m = 6 ∨ m = 9 ∨ m = 11 then 30
  else 31

/-- `pd.to_datetime` on one cell: accepts `YYYY-MM-DD` strings naming a
real calendar date, returns `none` (i.e. raises) otherwise. -/
def parseDate (s : String) : Option Date :=
  match splitDash s.toList with
  | [ys, ms, ds] =>
    match digitsToNat ys, digitsToNat ms, digitsToNat ds with
    | some y, some m, some d =>
      if 1 ≤ m ∧ m ≤ 12 ∧ 1 ≤ d ∧ d ≤ daysInMonth y m then
        some ⟨y, m, d⟩
      else none
    | _, _, _ => none
  | _ => none

/-- `pd.to_datetime(df['Date'])`: parses every cell of the column and
raises on the first unparseable one. -/
def parseDates : List RawRow → Except PrepError (List Date)
  | [] => .ok []
  | r :: rs =>
    match parseDate r.date with
    | none => .error (.parseError r.date)
    | some d =>
      match parseDates rs with
      | .error e => .error e
      | .ok ds => .ok (d :: ds)

/-- `df['Adj Close'].rolling(window=5).mean()`: over the whole column in
source order, entry `i` is the mean of entries `i-4 … i` once `i ≥ 4`,
and `NaN` (here `none`) for the first four entries. -/
def rollingMean5 (xs : List ℚ) : List (Option ℚ) :=
  (List.range xs.length).map fun i =>
    if 4 ≤ i then some ((((xs.drop (i - 4)).take 5).sum) / 5) else none

/-- `calendar.month_name[m]` for `m` in `1..12` (and the empty string
at `0`, as in Python). -/
def monthName : Nat → String
  | 1 => "January"
  | 2 => "February"
  | 3 => "March"
  | 4 => "April"
  | 5 => "May"
  | 6 => "June"
  | 7 => "July"
  | 8 => "August"
  | 9 => "September"
  | 10 => "October"
  | 11 => "November"
  | 12 => "December"
  | _ => ""

/-- The `ticker_name_mapping` dict of `load_data`; `Series.map` sends
keys absent from the dict to `NaN`, i.e. `none`. -/
def tickerNameMapping (t : String) : Option String :=
  if t = "^NYA" then some "New York Stock Exchange"
  else if t = "^IXIC" then some "NASDAQ"
  else if t = "^DJI" then some "Dow Jones"
  else if t = "^GSPC" then some "S&P 500"
  else none

/-- One row of the enriched frame `load_data` returns: the surviving
raw cells plus every derived column. -/
structure MarketRecord where
  ticker : String
  date : Date
  Open : ℚ
  close : ℚ
  adjClose : ℚ
  volume : ℚ
  priceChange : ℚ
  priceChangeDirection : Nat
  pricePercentageChange : PVal
  pricePercentageChangeDirection : Nat
  movingAverage : Option ℚ
  year : Nat
  month : Nat
  monthName : String
  tickerName : Option String
deriving DecidableEq, Repr

/-- Assemble one output row from a raw row, its parsed date and its
rolling-mean cell, following lines 27–42 of `Vis1.py`. -/
def mkRecord (r : RawRow) (d : Date) (ma : Option ℚ) : MarketRecord :=
  let pc : ℚ := r.adjClose - r.Open
  let ppc : PVal := (npDiv (r.close - r.Open) r.Open).mul100
  { ticker := r.ticker
    date := d
    Open := r.Open
    close := r.close
    adjClose := r.adjClose
    volume := r.volume
    priceChange := pc
    priceChangeDirection := if 0 < pc then 1 else 0
    pricePercentageChange := ppc
    pricePercentageChangeDirection := if ppc.gtZero then 1 else 0
    movingAverage := ma
    year := d.year
    month := d.month
    monthName := monthName d.month
    tickerName := tickerNameMapping r.ticker }

/-- Zip the raw rows with their parsed dates and rolling-mean cells. -/
def buildRecords : List RawRow → List Date → List (Option ℚ) → List MarketRecord
  | r :: rs, d :: ds, m :: ms => mkRecord r d m :: buildRecords rs ds ms
  | _, _, _ => []

/-- The `load_data` function of `Vis1.py` (lines 22–43), minus the file
read: from the parsed CSV to the enriched table, or the exception that
aborts it.  Column-presence checks are placed where `load_data` first
accesses each column: `df['Date']` (line 25), `drop(columns=['Unnamed: 0'])`
(line 26), `df['Adj Close']` and `df['Open']` (line 27), `df['Close']`
(line 29), `df['Ticker']` (line 42). -/
def load_data (t : RawTable) : Except PrepError (List MarketRecord) :=
  if !t.hasDate then .error (.keyError "Date")
  else
    match parseDates t.rows with
    | .error e => .error e
    | .ok ds =>
      if !t.hasUnnamed then .error (.keyError "Unnamed: 0")
      else if !t.hasAdjClose then .error (.keyError "Adj Close")
      else if !t.hasOpen then .error (.keyError "Open")
      else if !t.hasClose then .error (.keyError "Close")
      else if !t.hasTicker then .error (.keyError "Ticker")
      else .ok (buildRecords t.rows ds (rollingMean5 (t.rows.map (·.adjClose))))

/-! ### Example inputs used by the concrete theorems -/

/-- A raw row with the given ticker, date string and prices
(volume fixed at 1000). -/
def exRow (tk dt : String) (o c a : ℚ) : RawRow :=
  { ticker := tk, date := dt, Open := o, close := c, adjClose := a, volume := 1000 }

/-- A raw table with every accessed column present. -/
def exTable (rs : List RawRow) : RawTable :=
  { hasUnnamed := true, hasTicker := true, hasDate := true,
    hasOpen := true, hasClose := true, hasAdjClose := true, rows := rs }

/-- Ten rows with `^DJI` and `^GSPC` interleaved; `Adj Close` runs
1, 2, …, 10, so the `^DJI` series is 1, 3, 5, 7, 9. -/
def exInterleaved : RawTable := exTable [
  exRow "^DJI" "2020-01-02" 10 11 1,
  exRow "^GSPC" "2020-01-02" 10 11 2,
  exRow "^DJI" "2020-01-03" 10 11 3,
  exRow "^GSPC" "2020-01-03" 10 11 4,
  exRow "^DJI" "2020-01-06" 10 11 5,
  exRow "^GSPC" "2020-01-06" 10 11 6,
  exRow "^DJI" "2020-01-07" 10 11 7,
  exRow "^GSPC" "2020-01-07" 10 11 8,
  exRow "^DJI" "2020-01-08" 10 11 9,
  exRow "^GSPC" "2020-01-08" 10 11 10 ]

/-- A single row with a ticker absent from `ticker_name_mapping`. -/
def exUnknownTicker : RawTable := exTable [exRow "XYZ" "2020-01-02" 10 11 12]

/-- A single row with `Open = 0` (the division anomaly) and `Close > 0`. -/
def exZeroOpen : RawTable := exTable [exRow "^DJI" "2020-01-02" 0 1 2]

/-- The worked example row of the spec:
`(Ticker="^DJI", Date="2020-01-02", Open=100, Close=105, AdjClose=104)`. -/
def exSpecRow : RawTable := exTable [exRow "^DJI" "2020-01-02" 100 105 104]

/-- A valid table whose artifact column `Unnamed: 0` is absent. -/
def exNoUnnamed : RawTable :=
  { exTable [exRow "^DJI" "2020-01-02" 10 11 12] with hasUnnamed := false }

/-- A table containing a row whose date string is unparseable. -/
def exBadDate : RawTable :=
  exTable [exRow "^DJI" "2020-01-02" 10 11 12, exRow "^DJI" "not-a-date" 10 11 12]

/-! ### Structure of successful runs of `load_data` -/

/-- A successful `load_data` run forces every accessed column to be
present, every date to parse, and the output to be the zip of the rows
with their dates and the rolling mean of the whole `Adj Close` column. -/
theorem load_data_ok_elim (t : RawTable) (out : List MarketRecord)
    (h : load_data t = .ok out) :
    ∃ ds, parseDates t.rows = .ok ds ∧
      out = buildRecords t.rows ds (rollingMean5 (t.rows.map (·.adjClose))) ∧
      t.hasDate = true ∧ t.hasUnnamed = true ∧ t.hasAdjClose = true ∧
      t.hasOpen = true ∧ t.hasClose = true ∧ t.hasTicker = true := by
  unfold load_data at h
  cases hD : t.hasDate with
  | false => rw [hD] at h; simp at h
  | true =>
    rw [hD] at h
    simp only [Bool.not_true, Bool.false_eq_true, if_false] at h
    rcases hP : parseDates t.rows with e | ds <;> rw [hP] at h
    · simp at h
    · cases hU : t.hasUnnamed with
      | false => rw [hU] at h; simp at h
      | true =>
        rw [hU] at h
        cases hA : t.hasAdjClose with
        | false => rw [hA] at h; simp at h
        | true =>
          rw [hA] at h
          cases hO : t.hasOpen with
          | false => rw [hO] at h; simp at h
          | true =>
            rw [hO] at h
            cases hC : t.hasClose with
            | false => rw [hC] at h; simp at h
            | true =>
              rw [hC] at h
              cases hT : t.hasTicker with
              | false => rw [hT] at h; simp at h
              | true =>
                rw [hT] at h
                simp only [Bool.not_true, Bool.false_eq_true, if_false,
                  Except.ok.injEq] at h
                exact ⟨ds, rfl, h.symm, rfl, rfl, rfl, rfl, rfl, rfl⟩

/-- Every record of a zip of rows, dates and means comes from some raw
row via `mkRecord`. -/
theorem mem_buildRecords (rs : List RawRow) :
    ∀ (ds : List Date) (ms : List (Option ℚ)) (rec : MarketRecord),
      rec ∈ buildRecords rs ds ms → ∃ r d m, r ∈ rs ∧ rec = mkRecord r d m := by
  induction rs with
  | nil => intro ds ms rec h; simp [buildRecords] at h
  | cons r rs ih =>
    intro ds ms rec h
    cases ds with
    | nil => simp [buildRecords] at h
    | cons d ds =>
      cases ms with
      | nil => simp [buildRecords] at h
      | cons m ms =>
        rw [buildRecords] at h
        rcases List.mem_cons.mp h with h1 | h2
        · exact ⟨r, d, m, List.mem_cons_self _ _, h1⟩
        · obtain ⟨r', d', m', hr, he⟩ := ih ds ms rec h2
          exact ⟨r', d', m', List.mem_cons_of_mem _ hr, he⟩

/-- Every record of a successful `load_data` output is `mkRecord` of
some raw input row. -/
theorem mem_of_load_data_ok {t : RawTable} {out : List MarketRecord}
    {rec : MarketRecord} (h : load_data t = .ok out) (hm : rec ∈ out) :
    ∃ r d m, r ∈ t.rows ∧ rec = mkRecord r d m := by
  obtain ⟨ds, _, hout, _⟩ := load_data_ok_elim t out h
  rw [hout] at hm
  exact mem_buildRecords _ _ _ _ hm

/-! ### Record-level facts about the derived columns -/

/-- The percentage-change direction of an output record is 1 exactly
when `Close > Open`, provided the open price is non-negative (for
`Open = 0` the `+inf` / `nan` / `-inf` cases line up with the sign of
`Close`). -/
theorem mkRecord_percent_dir (r : RawRow) (d : Date) (m : Option ℚ)
    (hO : 0 ≤ r.Open) :
    (mkRecord r d m).pricePercentageChangeDirection
      = if r.Open < r.close then 1 else 0 := by
  show (if ((npDiv (r.close - r.Open) r.Open).mul100).gtZero then 1 else 0)
      = if r.Open < r.close then 1 else 0
  rcases hO.lt_or_eq with h0 | h0
  · rw [npDiv, if_pos (ne_of_gt h0)]
    show (if decide (0 < (r.close - r.Open) / r.Open * 100) then 1 else 0) = _
    have hiff : (0 < (r.close - r.Open) / r.Open * 100) ↔ r.Open < r.close := by
      rw [mul_pos_iff, div_pos_iff, sub_pos, sub_neg]
      constructor
      · rintro (⟨(⟨h1, _⟩ | ⟨_, h2⟩), _⟩ | ⟨_, h⟩)
        · exact h1
        · exact absurd h0 (asymm h2)
        · norm_num at h
      · intro h
        exact Or.inl ⟨Or.inl ⟨h, h0⟩, by norm_num⟩
    by_cases hc : r.Open < r.close
    · rw [if_pos hc, if_pos (by simpa [hiff] using hc)]
    · rw [if_neg hc, if_neg (by simpa [hiff] using hc)]
  · rw [npDiv, ← h0]
    simp only [sub_zero, ne_eq, not_true_eq_false, if_false]
    rcases lt_trichotomy (0:ℚ) r.close with hc | hc | hc
    · simp [PVal.mul100, PVal.gtZero, hc]
    · rw [← hc]
      simp [PVal.mul100, PVal.gtZero]
    · simp [PVal.mul100, PVal.gtZero, hc, asymm hc]

/-- With `Open = 0` the percentage change of an output record is one of
the three non-finite markers; in particular it is not finite and not
the finite value 0. -/
theorem mkRecord_zero_open_nonfinite (r : RawRow) (d : Date) (m : Option ℚ)
    (hO : r.Open = 0) :
    (mkRecord r d m).pricePercentageChange.isFinite = false ∧
    (mkRecord r d m).pricePercentageChange ≠ .finite 0 := by
  have hval : (mkRecord r d m).pricePercentageChange
      = (npDiv (r.close - r.Open) r.Open).mul100 := rfl
  rw [hval, hO, sub_zero]
  rcases lt_trichotomy (0:ℚ) r.close with hc | hc | hc
  · simp [npDiv, PVal.mul100, PVal.isFinite, hc]
  · rw [← hc]
    simp [npDiv, PVal.mul100, PVal.isFinite]
  · simp [npDiv, PVal.mul100, PVal.isFinite, hc, asymm hc]

/-! ### Claim theorems -/

/-- C3: for every row of a successful `load_data` output with a
non-negative (valid) open price, `Price_Change_Direction` is 1 exactly
when `Adj Close > Open` and 0 otherwise, and
`Price_Percentage_Change_Direction` is 1 exactly when `Close > Open`
and 0 otherwise. -/
theorem C3_directions (t : RawTable) (out : List MarketRecord)
    (rec : MarketRecord) (hok : load_data t = .ok out) (hmem : rec ∈ out)
    (hO : 0 ≤ rec.Open) :
    (rec.priceChangeDirection = if rec.Open < rec.adjClose then 1 else 0) ∧
    (rec.pricePercentageChangeDirection = if rec.Open < rec.close then 1 else 0) := by
  obtain ⟨r, d, m, _, hrec⟩ := mem_of_load_data_ok hok hmem
  subst hrec
  constructor
  · show (if 0 < r.adjClose - r.Open then 1 else 0)
        = if r.Open < r.adjClose then 1 else 0
    simp only [sub_pos]
  · exact mkRecord_percent_dir r d m hO

/-- C3 witness: on the spec's example row
(`Open=100, Close=105, AdjClose=104`) both directions evaluate to 1. -/
theorem C3_witness :
    (mkRecord (exRow "^DJI" "2020-01-02" 100 105 104) ⟨2020, 1, 2⟩ none).priceChangeDirection = 1 ∧
    (mkRecord (exRow "^DJI" "2020-01-02" 100 105 104) ⟨2020, 1, 2⟩ none).pricePercentageChangeDirection = 1 := by
  have h := C3_directions exSpecRow
    [mkRecord (exRow "^DJI" "2020-01-02" 100 105 104) ⟨2020, 1, 2⟩ none]
    (mkRecord (exRow "^DJI" "2020-01-02" 100 105 104) ⟨2020, 1, 2⟩ none)
    (by with_unfolding_all rfl) (List.mem_singleton.mpr rfl)
    (show (0:ℚ) ≤ 100 by norm_num)
  refine ⟨?_, ?_⟩
  · rw [h.1]
    show (if (100:ℚ) < 104 then 1 else 0) = 1
    norm_num
  · rw [h.2]
    show (if (100:ℚ) < 105 then 1 else 0) = 1
    norm_num

/-- C4: on every row of a successful `load_data` output,
`Price_Change = Adj Close - Open` and, whenever `Open ≠ 0`,
`Price_Percentage_Change = (Close - Open) / Open * 100`; on the spec's
example row the derived columns are `(4, 1, 5.0, 1)`. -/
theorem C4_price_change_formulas :
    (∀ (t : RawTable) (out : List MarketRecord) (rec : MarketRecord),
        load_data t = .ok out → rec ∈ out →
        rec.priceChange = rec.adjClose - rec.Open ∧
        (rec.Open ≠ 0 →
          rec.pricePercentageChange
            = .finite ((rec.close - rec.Open) / rec.Open * 100))) ∧
    ((load_data exSpecRow).toOption.bind (fun l => l.get? 0)).map
        (fun r => (r.priceChange, r.priceChangeDirection,
          r.pricePercentageChange, r.pricePercentageChangeDirection))
      = some (4, 1, .finite 5, 1) := by
  constructor
  · intro t out rec hok hmem
    obtain ⟨r, d, m, _, hrec⟩ := mem_of_load_data_ok hok hmem
    subst hrec
    refine ⟨rfl, fun hne => ?_⟩
    show (npDiv (r.close - r.Open) r.Open).mul100 = _
    have hne' : r.Open ≠ 0 := hne
    rw [npDiv, if_pos hne']
    rfl
  · with_unfolding_all decide

/-- C4 witness: the general formula instantiated on the spec's example
row gives `Price_Change = 104 - 100` and
`Price_Percentage_Change = (105 - 100) / 100 * 100`. -/
theorem C4_witness :
    (mkRecord (exRow "^DJI" "2020-01-02" 100 105 104) ⟨2020, 1, 2⟩ none).priceChange
      = 104 - 100 ∧
    (mkRecord (exRow "^DJI" "2020-01-02" 100 105 104) ⟨2020, 1, 2⟩ none).pricePercentageChange
      = .finite ((105 - 100) / 100 * 100) := by
  have h := C4_price_change_formulas.1 exSpecRow
    [mkRecord (exRow "^DJI" "2020-01-02" 100 105 104) ⟨2020, 1, 2⟩ none]
    (mkRecord (exRow "^DJI" "2020-01-02" 100 105 104) ⟨2020, 1, 2⟩ none)
    (by with_unfolding_all rfl) (List.mem_singleton.mpr rfl)
  exact ⟨h.1, h.2 (show (100:ℚ) ≠ 0 by norm_num)⟩

/-- C5: on every row of a successful `load_data` output with `Open = 0`,
the percentage change is a non-finite marker and in particular is not
the (finite) value 0. -/
theorem C5_zero_open_nonfinite (t : RawTable) (out : List MarketRecord)
    (rec : MarketRecord) (hok : load_data t = .ok out) (hmem : rec ∈ out)
    (hO : rec.Open = 0) :
    rec.pricePercentageChange.isFinite = false ∧
    rec.pricePercentageChange ≠ .finite 0 := by
  obtain ⟨r, d, m, _, hrec⟩ := mem_of_load_data_ok hok hmem
  subst hrec
  exact mkRecord_zero_open_nonfinite r d m hO

/-- C5 witness: on a concrete row with `Open = 0` the percentage change
is indeed non-finite and not 0. -/
theorem C5_witness :
    (mkRecord (exRow "^DJI" "2020-01-02" 0 1 2) ⟨2020, 1, 2⟩ none).pricePercentageChange.isFinite = false ∧
    (mkRecord (exRow "^DJI" "2020-01-02" 0 1 2) ⟨2020, 1, 2⟩ none).pricePercentageChange ≠ .finite 0 :=
  C5_zero_open_nonfinite exZeroOpen
    [mkRecord (exRow "^DJI" "2020-01-02" 0 1 2) ⟨2020, 1, 2⟩ none]
    (mkRecord (exRow "^DJI" "2020-01-02" 0 1 2) ⟨2020, 1, 2⟩ none)
    (by with_unfolding_all rfl) (List.mem_singleton.mpr rfl) rfl

/-- C1: the code computes `Moving_Average` as a rolling mean over the
whole `Adj Close` column in source order, not per ticker.  On the
interleaved two-ticker table, output row 4 is the third `^DJI` record
(the claim requires its average to be missing) yet carries the mean 3
of the first five rows of the file (values 1..5, mixing both tickers),
and output row 8, the fifth `^DJI` record (whose per-ticker mean of
1, 3, 5, 7, 9 would be 5), carries 7 instead. -/
theorem C1_moving_average_global :
    ((load_data exInterleaved).toOption.bind (fun l => l.get? 4)).map
        (fun r => (r.ticker, r.movingAverage)) = some ("^DJI", some 3) ∧
    ((load_data exInterleaved).toOption.bind (fun l => l.get? 8)).map
        (fun r => (r.ticker, r.movingAverage)) = some ("^DJI", some 7) := by
  with_unfolding_all decide

/-- C2 counterexample: on a row whose ticker `XYZ` is absent from the
mapping, `Ticker_Name` is the missing marker (`Series.map` yields
`NaN`), not the raw string `XYZ` as the claim states. -/
theorem C2_counterexample :
    ((load_data exUnknownTicker).toOption.bind (fun l => l.get? 0)).map
        (fun r => (r.ticker, r.tickerName)) = some ("XYZ", none) := by
  with_unfolding_all decide

/-- C2 (amended): every output row's `Ticker_Name` is the image of its
ticker under the fixed mapping; `^GSPC` resolves to `S&P 500`, and a
ticker absent from the mapping yields the missing marker. -/
theorem C2_ticker_name_mapping (t : RawTable) (out : List MarketRecord)
    (rec : MarketRecord) (hok : load_data t = .ok out) (hmem : rec ∈ out) :
    rec.tickerName = tickerNameMapping rec.ticker ∧
    (rec.ticker = "^GSPC" → rec.tickerName = some "S&P 500") ∧
    (tickerNameMapping rec.ticker = none → rec.tickerName = none) := by
  obtain ⟨r, d, m, _, hrec⟩ := mem_of_load_data_ok hok hmem
  subst hrec
  refine ⟨rfl, fun h => ?_, fun h => ?_⟩
  · have h' : r.ticker = "^GSPC" := h
    show tickerNameMapping r.ticker = some "S&P 500"
    rw [h']
    with_unfolding_all rfl
  · exact h

/-- C2 witness: a `^GSPC` row of a successful run resolves to
`S&P 500`. -/
theorem C2_witness :
    (mkRecord (exRow "^GSPC" "2020-01-02" 10 11 12) ⟨2020, 1, 2⟩ none).tickerName
      = some "S&P 500" :=
  (C2_ticker_name_mapping (exTable [exRow "^GSPC" "2020-01-02" 10 11 12])
    [mkRecord (exRow "^GSPC" "2020-01-02" 10 11 12) ⟨2020, 1, 2⟩ none]
    (mkRecord (exRow "^GSPC" "2020-01-02" 10 11 12) ⟨2020, 1, 2⟩ none)
    (by with_unfolding_all rfl) (List.mem_singleton.mpr rfl)).2.1 rfl

/-- C9: `load_data` is a pure function of its input table, so two runs
on identical input return identical tables (all derived columns
included). -/
theorem C9_deterministic (t u : RawTable) (h : t = u) :
    load_data t = load_data u := by
  rw [h]

/-- C9 witness: determinism instantiated on a concrete table. -/
theorem C9_witness : load_data exInterleaved = load_data exInterleaved :=
  C9_deterministic exInterleaved exInterleaved rfl

/-- C10 counterexample: on a row with `Open = 0` and `Close = 1` the
percentage change is non-finite (`+inf`), yet its direction is 1, not
0 as the claim states. -/
theorem C10_counterexample :
    ((load_data exZeroOpen).toOption.bind (fun l => l.get? 0)).map
        (fun r => (r.pricePercentageChange.isFinite,
          r.pricePercentageChangeDirection)) = some (false, 1) := by
  with_unfolding_all decide

/-- C10 (amended): both direction columns are always exactly 0 or 1,
never missing; a `nan` or `-inf` percentage gives direction 0, but a
`+inf` percentage (Open = 0 with Close > 0) gives direction 1. -/
theorem C10_directions_total (t : RawTable) (out : List MarketRecord)
    (rec : MarketRecord) (hok : load_data t = .ok out) (hmem : rec ∈ out) :
    (rec.priceChangeDirection = 0 ∨ rec.priceChangeDirection = 1) ∧
    (rec.pricePercentageChangeDirection = 0 ∨
      rec.pricePercentageChangeDirection = 1) ∧
    ((rec.pricePercentageChange = .nan ∨ rec.pricePercentageChange = .negInf) →
      rec.pricePercentageChangeDirection = 0) ∧
    (rec.pricePercentageChange = .posInf →
      rec.pricePercentageChangeDirection = 1) := by
  obtain ⟨r, d, m, _, hrec⟩ := mem_of_load_data_ok hok hmem
  subst hrec
  refine ⟨?_, ?_, fun h => ?_, fun h => ?_⟩
  · show (if 0 < r.adjClose - r.Open then 1 else 0) = 0 ∨
        (if 0 < r.adjClose - r.Open then 1 else 0) = 1
    by_cases hc : 0 < r.adjClose - r.Open
    · exact Or.inr (if_pos hc)
    · exact Or.inl (if_neg hc)
  · show (if ((npDiv (r.close - r.Open) r.Open).mul100).gtZero then 1 else 0) = 0 ∨
        (if ((npDiv (r.close - r.Open) r.Open).mul100).gtZero then 1 else 0) = 1
    by_cases hc : ((npDiv (r.close - r.Open) r.Open).mul100).gtZero
    · exact Or.inr (if_pos hc)
    · exact Or.inl (if_neg hc)
  · have h' : (npDiv (r.close - r.Open) r.Open).mul100 = .nan ∨
        (npDiv (r.close - r.Open) r.Open).mul100 = .negInf := h
    show (if ((npDiv (r.close - r.Open) r.Open).mul100).gtZero then 1 else 0) = 0
    rcases h' with h' | h' <;> rw [h'] <;> rfl
  · have h' : (npDiv (r.close - r.Open) r.Open).mul100 = .posInf := h
    show (if ((npDiv (r.close - r.Open) r.Open).mul100).gtZero then 1 else 0) = 1
    rw [h']
    rfl

/-- C10 witness: on the spec's example row both directions are 0 or 1. -/
theorem C10_witness :
    ((mkRecord (exRow "^DJI" "2020-01-02" 100 105 104) ⟨2020, 1, 2⟩ none).priceChangeDirection = 0 ∨
     (mkRecord (exRow "^DJI" "2020-01-02" 100 105 104) ⟨2020, 1, 2⟩ none).priceChangeDirection = 1) ∧
    ((mkRecord (exRow "^DJI" "2020-01-02" 100 105 104) ⟨2020, 1, 2⟩ none).pricePercentageChangeDirection = 0 ∨
     (mkRecord (exRow "^DJI" "2020-01-02" 100 105 104) ⟨2020, 1, 2⟩ none).pricePercentageChangeDirection = 1) := by
  have h := C10_directions_total exSpecRow
    [mkRecord (exRow "^DJI" "2020-01-02" 100 105 104) ⟨2020, 1, 2⟩ none]
    (mkRecord (exRow "^DJI" "2020-01-02" 100 105 104) ⟨2020, 1, 2⟩ none)
    (by with_unfolding_all rfl) (List.mem_singleton.mpr rfl)
  exact ⟨h.1, h.2.1⟩

/-! ### Error paths of `load_data` -/

/-- If some row's date string is unparseable, `pd.to_datetime` raises:
`parseDates` returns a parse error carrying an unparseable string. -/
theorem parseDates_error_of_bad (rs : List RawRow)
    (h : ∃ r ∈ rs, parseDate r.date = none) :
    ∃ s, parseDates rs = .error (.parseError s) ∧ parseDate s = none := by
  induction rs with
  | nil => simp at h
  | cons r rs ih =>
    rcases h with ⟨r', hr', hp⟩
    rcases List.mem_cons.mp hr' with h1 | h2
    · subst h1
      exact ⟨r'.date, by simp [parseDates, hp], hp⟩
    · cases hq : parseDate r.date with
      | none => exact ⟨r.date, by simp [parseDates, hq], hq⟩
      | some d =>
        obtain ⟨s, hs, hps⟩ := ih ⟨r', h2, hp⟩
        exact ⟨s, by simp [parseDates, hq, hs], hps⟩

/-- A date-parse failure propagates out of `load_data` unchanged
(once the `Date` column itself is present). -/
theorem load_data_of_parseDates_error (t : RawTable) (e : PrepError)
    (hD : t.hasDate = true) (hP : parseDates t.rows = .error e) :
    load_data t = .error e := by
  unfold load_data
  rw [hD, hP]
  simp

/-- With the `Date` column present and all dates parseable, a missing
`Unnamed: 0` column makes `drop(columns=['Unnamed: 0'])` raise
`KeyError`. -/
theorem load_data_missing_unnamed (t : RawTable) (ds : List Date)
    (hD : t.hasDate = true) (hP : parseDates t.rows = .ok ds)
    (hU : t.hasUnnamed = false) :
    load_data t = .error (.keyError "Unnamed: 0") := by
  unfold load_data
  rw [hD, hP, hU]
  simp

/-- C8: if the `Date` column is present and some row's date string is
unparseable, `load_data` aborts with a parse error (carrying an
unparseable string) and returns no table. -/
theorem C8_parse_error_aborts (t : RawTable) (hD : t.hasDate = true)
    (h : ∃ r ∈ t.rows, parseDate r.date = none) :
    ∃ s, load_data t = .error (.parseError s) ∧ parseDate s = none := by
  obtain ⟨s, hs, hps⟩ := parseDates_error_of_bad t.rows h
  exact ⟨s, load_data_of_parseDates_error t _ hD hs, hps⟩

/-- C8 witness: on the table containing the row dated `not-a-date`,
`load_data` produces no output table. -/
theorem C8_witness : (load_data exBadDate).toOption.isSome = false := by
  obtain ⟨s, hs, _⟩ := C8_parse_error_aborts exBadDate rfl
    ⟨exRow "^DJI" "not-a-date" 10 11 12,
      List.mem_cons_of_mem _ (List.mem_cons_self _ _),
      by with_unfolding_all rfl⟩
  rw [hs]
  rfl

/-- C6 counterexample: on a table whose only row has `Open = 0` (the
`DivisionAnomaly` of the taxonomy), `load_data` does not abort: it
succeeds and returns a table whose percentage-change cell is
non-finite. -/
theorem C6_counterexample :
    (load_data exZeroOpen).toOption.isSome = true ∧
    ((load_data exZeroOpen).toOption.bind (fun l => l.get? 0)).map
        (fun r => r.pricePercentageChange.isFinite) = some false := by
  with_unfolding_all decide

/-- C6 (amended): a missing required column or an unparseable date
aborts `load_data` with an error and no table is returned, but the
division anomaly (`Open = 0`) is not detected: the load succeeds and
the non-finite percentage propagates into the returned table. -/
theorem C6_error_policy (t : RawTable) :
    ((t.hasDate = false ∨ t.hasUnnamed = false ∨ t.hasAdjClose = false ∨
        t.hasOpen = false ∨ t.hasClose = false ∨ t.hasTicker = false) →
      ∃ e, load_data t = .error e) ∧
    ((∃ r ∈ t.rows, parseDate r.date = none) →
      ∃ e, load_data t = .error e) ∧
    (∀ out rec, load_data t = .ok out → rec ∈ out → rec.Open = 0 →
      rec.pricePercentageChange.isFinite = false) := by
  refine ⟨fun h => ?_, fun h => ?_, fun out rec hok hmem hO => ?_⟩
  · rcases hres : load_data t with e | out
    · exact ⟨e, rfl⟩
    · obtain ⟨ds, hP, hout, hD, hU, hA, hOp, hC, hT⟩ :=
        load_data_ok_elim t out hres
      rcases h with h | h | h | h | h | h <;> simp_all
  · rcases hres : load_data t with e | out
    · exact ⟨e, rfl⟩
    · obtain ⟨ds, hP, _, _⟩ := load_data_ok_elim t out hres
      obtain ⟨s, hs, _⟩ := parseDates_error_of_bad t.rows h
      rw [hP] at hs
      exact absurd hs (by simp)
  · obtain ⟨r, d, m, _, hrec⟩ := mem_of_load_data_ok hok hmem
    subst hrec
    exact (mkRecord_zero_open_nonfinite r d m hO).1

/-- C6 witness: a table missing its artifact column yields no output
table. -/
theorem C6_witness : (load_data exNoUnnamed).toOption.isSome = false := by
  obtain ⟨e, he⟩ := (C6_error_policy exNoUnnamed).1 (Or.inr (Or.inl rfl))
  rw [he]
  rfl

/-- C7 counterexample: a well-formed table without the `Unnamed: 0`
artifact column is rejected: `load_data` raises `KeyError` instead of
accepting the input, so the column is required, not optional. -/
theorem C7_counterexample :
    load_data exNoUnnamed = .error (.keyError "Unnamed: 0") := by
  with_unfolding_all rfl

/-- C7 (amended): the artifact column is required: when it is absent
(and the dates parse) `load_data` fails with `KeyError` on
`Unnamed: 0`, and every successful run had the column present (and
dropped: no output field carries it). -/
theorem C7_unnamed_required (t : RawTable) :
    (∀ ds, t.hasDate = true → parseDates t.rows = .ok ds →
      t.hasUnnamed = false →
      load_data t = .error (.keyError "Unnamed: 0")) ∧
    (∀ out, load_data t = .ok out → t.hasUnnamed = true) := by
  constructor
  · intro ds hD hP hU
    exact load_data_missing_unnamed t ds hD hP hU
  · intro out hok
    obtain ⟨ds, _, _, _, hU, _⟩ := load_data_ok_elim t out hok
    exact hU

/-- C7 witness: the requiredness instantiated on the concrete table
without the artifact column. -/
theorem C7_witness :
    load_data exNoUnnamed = .error (.keyError "Unnamed: 0") :=
  (C7_unnamed_required exNoUnnamed).1 [⟨2020, 1, 2⟩] rfl
    (by with_unfolding_all rfl) rfl
